import Mathlib

/-!
# Verification of `Schaap-To-SHETRAN-1Layer.py`

A shallow embedding of the Schaap-to-SHETRAN conversion pipeline
(`src/Schaap-To-SHETRAN-1Layer.py`) together with proofs about it.

Grid cell values are modelled as rationals (`ℚ`): the script compares cell
values only for equality and multiplies Ksat values by the exact decimal
constant 0.01, both of which `ℚ` captures.

The script's deduplication primitive is `pandas.Series.unique`, which returns
the distinct values of a series in order of first appearance; it is embedded
here as `uniq`.
-/

namespace SchaapToShetran

/-- Worker for `uniq`: keeps the elements not yet seen, in order, threading
the set of already-seen values through the traversal. -/
def uniqAux {α : Type} [DecidableEq α] (seen : List α) : List α → List α
  | [] => []
  | x :: xs => if x ∈ seen then uniqAux seen xs else x :: uniqAux (x :: seen) xs

/-- `pandas.Series.unique`: the distinct elements of a list in order of first
appearance (used at lines 128, 156 and 158-162 of the script). -/
def uniq {α : Type} [DecidableEq α] (l : List α) : List α := uniqAux [] l

variable {α : Type} [DecidableEq α]

theorem uniqAux_congr : ∀ (l s₁ s₂ : List α), (∀ y, y ∈ s₁ ↔ y ∈ s₂) →
    uniqAux s₁ l = uniqAux s₂ l
  | [], _, _, _ => rfl
  | x :: xs, s₁, s₂, h => by
    simp only [uniqAux]
    by_cases hx : x ∈ s₁
    · rw [if_pos hx, if_pos ((h x).1 hx), uniqAux_congr xs s₁ s₂ h]
    · rw [if_neg hx, if_neg (fun hc => hx ((h x).2 hc))]
      congr 1
      apply uniqAux_congr
      intro y
      simp only [List.mem_cons]
      exact or_congr Iff.rfl (h y)

theorem uniqAux_cons_eq_filter : ∀ (l : List α) (seen : List α) (x : α),
    uniqAux (x :: seen) l = uniqAux seen (l.filter (fun y => y ≠ x))
  | [], _, _ => rfl
  | a :: l, seen, x => by
    by_cases hax : a = x
    · subst hax
      have h1 : uniqAux (a :: seen) (a :: l) = uniqAux (a :: seen) l := by
        simp [uniqAux]
      have h2 : (a :: l).filter (fun y => y ≠ a) = l.filter (fun y => y ≠ a) := by
        simp [List.filter_cons]
      rw [h1, h2]
      exact uniqAux_cons_eq_filter l seen a
    · have hfil : (a :: l).filter (fun y => y ≠ x) = a :: l.filter (fun y => y ≠ x) := by
        simp [List.filter_cons, hax]
      rw [hfil]
      by_cases hseen : a ∈ seen
      · have h1 : uniqAux (x :: seen) (a :: l) = uniqAux (x :: seen) l := by
          simp [uniqAux, hseen]
        have h2 : uniqAux seen (a :: l.filter (fun y => y ≠ x)) =
            uniqAux seen (l.filter (fun y => y ≠ x)) := by
          simp [uniqAux, hseen]
        rw [h1, h2]
        exact uniqAux_cons_eq_filter l seen x
      · have h1 : uniqAux (x :: seen) (a :: l) = a :: uniqAux (a :: x :: seen) l := by
          simp [uniqAux, hseen, hax]
        have h2 : uniqAux seen (a :: l.filter (fun y => y ≠ x)) =
            a :: uniqAux (a :: seen) (l.filter (fun y => y ≠ x)) := by
          simp [uniqAux, hseen]
        rw [h1, h2]
        congr 1
        rw [uniqAux_congr l (a :: x :: seen) (x :: a :: seen)
          (by intro y; simp only [List.mem_cons]; tauto)]
        exact uniqAux_cons_eq_filter l (a :: seen) x

theorem uniq_nil : uniq ([] : List α) = [] := rfl

theorem uniq_cons (x : α) (xs : List α) :
    uniq (x :: xs) = x :: uniq (xs.filter (fun y => y ≠ x)) := by
  show uniqAux [] (x :: xs) = _
  rw [uniqAux, if_neg (List.not_mem_nil x)]
  rw [uniqAux_cons_eq_filter xs [] x]
  rfl

theorem mem_uniq {a : α} : ∀ {l : List α}, a ∈ uniq l ↔ a ∈ l
  | [] => by simp [uniq, uniqAux]
  | x :: xs => by
    rw [uniq_cons, List.mem_cons, List.mem_cons]
    by_cases hax : a = x
    · simp [hax]
    · have : a ∈ uniq (xs.filter (fun y => y ≠ x)) ↔ a ∈ xs.filter (fun y => y ≠ x) :=
        mem_uniq
      rw [this, List.mem_filter]
      simp [hax]
termination_by l => l.length
decreasing_by
  simp only [List.length_cons]
  exact Nat.lt_succ_of_le (List.length_filter_le _ _)

theorem nodup_uniq : ∀ (l : List α), (uniq l).Nodup
  | [] => by simp [uniq, uniqAux]
  | x :: xs => by
    rw [uniq_cons]
    refine List.nodup_cons.2 ⟨fun hx => ?_, nodup_uniq _⟩
    have := (List.mem_filter.1 (mem_uniq.1 hx)).2
    simp at this
termination_by l => l.length
decreasing_by
  simp only [List.length_cons]
  exact Nat.lt_succ_of_le (List.length_filter_le _ _)

theorem length_uniq_pos {l : List α} (h : l ≠ []) : 0 < (uniq l).length := by
  cases l with
  | nil => exact absurd rfl h
  | cons x xs => rw [uniq_cons]; simp

theorem uniq_replicate (n : ℕ) (a : α) (h : 0 < n) :
    uniq (List.replicate n a) = [a] := by
  cases n with
  | zero => omega
  | succ m =>
    rw [List.replicate_succ, uniq_cons]
    have : (List.replicate m a).filter (fun y => y ≠ a) = [] := by
      apply List.filter_eq_nil_iff.2
      intro b hb
      rw [List.eq_of_mem_replicate hb]
      simp
    rw [this, uniq_nil]

theorem uniq_append : ∀ (l₁ l₂ : List α),
    uniq (l₁ ++ l₂) = uniq l₁ ++ uniq (l₂.filter (fun b => b ∉ l₁))
  | [], l₂ => by simp [uniq_nil]
  | x :: xs, l₂ => by
    rw [List.cons_append, uniq_cons, uniq_cons, List.filter_append,
      uniq_append (xs.filter (fun y => y ≠ x)) (l₂.filter (fun y => y ≠ x)),
      List.cons_append]
    congr 2
    rw [List.filter_filter]
    apply congrArg uniq
    apply List.filter_congr
    intro b _
    by_cases hbx : b = x
    · simp [hbx]
    · simp [hbx, List.mem_filter]
termination_by l₁ _ => l₁.length
decreasing_by
  simp only [List.length_cons]
  exact Nat.lt_succ_of_le (List.length_filter_le _ _)

theorem uniq_map_of_injOn {β : Type} [DecidableEq β] :
    ∀ (l : List α) (f : α → β),
      (∀ a ∈ l, ∀ b ∈ l, f a = f b → a = b) →
      uniq (l.map f) = (uniq l).map f
  | [], _, _ => by simp [uniq_nil]
  | x :: xs, f, hinj => by
    rw [List.map_cons, uniq_cons, uniq_cons, List.map_cons]
    congr 1
    have hfilter : (xs.map f).filter (fun y => y ≠ f x) =
        (xs.filter (fun y => y ≠ x)).map f := by
      rw [List.filter_map]
      congr 1
      apply List.filter_congr
      intro a ha
      by_cases hax : a = x
      · simp [Function.comp, hax]
      · have : f a ≠ f x := fun hf =>
          hax (hinj a (List.mem_cons_of_mem _ ha) x (List.mem_cons_self _ _) hf)
        simp [Function.comp, hax, this]
    rw [hfilter]
    exact uniq_map_of_injOn (xs.filter (fun y => y ≠ x)) f
      (fun a ha b hb hf =>
        hinj a (List.mem_cons_of_mem _ (List.mem_of_mem_filter ha))
          b (List.mem_cons_of_mem _ (List.mem_of_mem_filter hb)) hf)
termination_by l _ _ => l.length
decreasing_by
  simp only [List.length_cons]
  exact Nat.lt_succ_of_le (List.length_filter_le _ _)

/-- The index a value gets in the first-seen unique list: the position of the
first occurrence of a fresh value `l[i]` is the number of distinct values seen
strictly before it. -/
theorem indexOf_uniq_of_fresh {l : List α} {i : ℕ} (hi : i < l.length)
    (hfresh : l[i] ∉ l.take i) :
    (uniq l).indexOf l[i] = (uniq (l.take i)).length := by
  have hdecomp : l = l.take i ++ l[i] :: l.drop (i + 1) := by
    conv_lhs => rw [← List.take_append_drop i l]
    rw [List.drop_eq_getElem_cons hi]
  have hsplit := uniq_append (l.take i) (l[i] :: l.drop (i + 1))
  rw [← hdecomp] at hsplit
  have hhead : (l[i] :: l.drop (i + 1)).filter (fun b => b ∉ l.take i) =
      l[i] :: (l.drop (i + 1)).filter (fun b => b ∉ l.take i) := by
    rw [List.filter_cons]
    simp [hfresh]
  rw [hhead, uniq_cons] at hsplit
  rw [hsplit, List.indexOf_append_of_not_mem (fun h => hfresh (mem_uniq.1 h)),
    List.indexOf_cons_self]
  omega

/-! ## Embedding of the pipeline -/

/-- A parsed ASC raster grid: rows of rational cell values.  The Raster Reader
(`ASCtoDfParam`, imported from `CustomFunctionsToSHETRAN` and not part of this
repository) is modelled from the spec: it returns a 2D array of floats of
shape (nrows, ncols) parsed from the file, so here a grid is simply that
array. -/
abbrev Grid := List (List ℚ)

/-- Flattening a 2D DataFrame row-major (`DfX.values.flatten()`,
lines 116-122 of the script). -/
def flattenGrid (g : Grid) : List ℚ := g.flatten

/-- Line 120 of the script: unit conversion of the flattened Ksat series from
cm/day to m/day, passing the no-data sentinel -999 through unchanged:
`VG_Ksat.apply(lambda x: x if x == -999 else x * 0.01)`. -/
def ksatConvert (l : List ℚ) : List ℚ :=
  l.map (fun x => if x = -999 then x else x * 0.01)

/-- Lines 128-139 of the script: map each cell's θSat value to its index in
the first-seen unique list (`VG_ThetaS_unique_dict` maps each unique value to
its position in `VG_ThetaS.unique()`; the loop replaces each cell value by
that position). -/
def superCats {α : Type} [DecidableEq α] (l : List α) : List ℕ :=
  l.map (fun v => (uniq l).indexOf v)

/-- Worker for `toRows`, recursing on a fuel bound. -/
def toRowsAux {α : Type} (n : ℕ) : ℕ → List α → List (List α)
  | 0, _ => []
  | fuel + 1, l =>
    if n = 0 ∨ l.isEmpty then [] else l.take n :: toRowsAux n fuel (l.drop n)

/-- Line 143 of the script: reshape a flat series into an (nrows × ncols)
grid (`SuperCats.values.reshape(Nrows,Ncols)`), row-major: successive chunks
of `n` values become the rows. -/
def toRows {α : Type} (n : ℕ) (l : List α) : List (List α) :=
  toRowsAux n l.length l

theorem toRowsAux_fuel {α : Type} (n : ℕ) :
    ∀ (f₁ : ℕ) (l : List α) (f₂ : ℕ), l.length ≤ f₁ → l.length ≤ f₂ →
      toRowsAux n f₁ l = toRowsAux n f₂ l
  | 0, l, f₂, h₁, _ => by
    have hl : l = [] := List.length_eq_zero.1 (Nat.le_zero.1 h₁)
    subst hl
    cases f₂ with
    | zero => rfl
    | succ f => simp [toRowsAux]
  | f₁ + 1, l, f₂, h₁, h₂ => by
    cases f₂ with
    | zero =>
      have hl : l = [] := List.length_eq_zero.1 (Nat.le_zero.1 h₂)
      subst hl
      simp [toRowsAux]
    | succ f =>
      simp only [toRowsAux]
      by_cases hc : n = 0 ∨ l.isEmpty
      · rw [if_pos hc, if_pos hc]
      · rw [if_neg hc, if_neg hc]
        push_neg at hc
        have hn : 0 < n := Nat.pos_of_ne_zero hc.1
        have hl : 0 < l.length := by
          cases l with
          | nil => simp at hc
          | cons a as => simp
        have hd : (l.drop n).length = l.length - n := List.length_drop n l
        congr 1
        exact toRowsAux_fuel n f₁ (l.drop n) f (by omega) (by omega)

theorem toRows_eq {α : Type} (n : ℕ) (l : List α) :
    toRows n l = if n = 0 ∨ l.isEmpty then [] else l.take n :: toRows n (l.drop n) := by
  cases l with
  | nil =>
    simp [toRows, toRowsAux]
  | cons a as =>
    show toRowsAux n (as.length + 1) (a :: as) = _
    simp only [toRowsAux]
    by_cases hc : n = 0 ∨ (a :: as).isEmpty
    · rw [if_pos hc, if_pos hc]
    · rw [if_neg hc, if_neg hc]
      push_neg at hc
      have hn : 0 < n := Nat.pos_of_ne_zero hc.1
      congr 1
      apply toRowsAux_fuel
      · simp only [List.length_drop, List.length_cons]
        omega
      · exact Nat.le_refl _

theorem toRows_nil {α : Type} (n : ℕ) : toRows n ([] : List α) = [] := by
  rw [toRows_eq]
  simp

/-- Reshaping then flattening row-major gives back the flat series (the chunk
width must be positive unless the series is empty). -/
theorem flatten_toRows {α : Type} (n : ℕ) (hn : 0 < n) :
    ∀ (l : List α), (toRows n l).flatten = l
  | [] => by rw [toRows_nil]; rfl
  | x :: xs => by
    rw [toRows_eq, if_neg (by simp; omega)]
    rw [List.flatten_cons, flatten_toRows n hn ((x :: xs).drop n),
      List.take_append_drop]
termination_by l => l.length
decreasing_by
  simp only [List.length_drop, List.length_cons]
  omega

/-- Lines 94-103 of the script: the subcategory grid, cell (r, c) holding
`int(1 + (Ncols * Row) + Col)`. -/
def dfSubCats (nrows ncols : ℕ) : List (List ℕ) :=
  (List.range nrows).map (fun r => (List.range ncols).map (fun c => 1 + ncols * r + c))

/-- One row of the Soil Properties table (lines 166-175 of the script):
columns SuperCats, SoilType (a duplicate of SuperCats) and the five
Van Genuchten parameters.  The literal `<SoilProperty>`/`</SoilProperty>`
marker columns are constant and added at serialisation. -/
structure PropRow where
  superCat : ℕ
  soilType : ℕ
  thetaS : ℚ
  thetaR : ℚ
  ksat : ℚ
  alpha : ℚ
  n : ℚ
deriving DecidableEq

/-- One row of the Soil Details table (lines 188-194 of the script):
columns SuperCats, SoilLayer, SoilType, Depth[m].  The literal
`<SoilDetail>`/`</SoilDetail>` marker columns are constant and added at
serialisation. -/
structure DetailRow where
  superCat : ℕ
  soilLayer : ℕ
  soilType : ℕ
  depth : ℚ
deriving DecidableEq

/-- The three output artifacts of the script. -/
inductive OutFile
  | superCatsMap
  | soilProperties
  | soilDetails
deriving DecidableEq

/-- Errors the run can terminate with.  `indexError` models Python's
IndexError (raised by `PathList[k]` when the glob found fewer files than the
script indexes); `lengthMismatch` models the pandas ValueError raised when a
column of the wrong length is assigned to a DataFrame (lines 166-175).
`configurationError` models the spec's ConfigurationError taxonomy entry; the
script never raises it. -/
inductive PipelineError
  | indexError
  | lengthMismatch
  | configurationError
deriving DecidableEq

/-- Lines 166-175 of the script: the Soil Properties table, built by zipping
the deduplicated SuperCats column with the five per-parameter unique-value
lists (all of equal length when construction succeeds). -/
def buildProps (scU : List ℕ) (uS uR uK uA uN : List ℚ) : List PropRow :=
  (List.range scU.length).map (fun k =>
    { superCat := scU.getD k 0
      soilType := scU.getD k 0
      thetaS := uS.getD k 0
      thetaR := uR.getD k 0
      ksat := uK.getD k 0
      alpha := uA.getD k 0
      n := uN.getD k 0 })

/-- Lines 188-194 of the script: the Soil Details table, one row per
Supercategory ID, with SoilLayer fixed at 1, SoilType duplicating the ID and
Depth[m] fixed at 2.0. -/
def buildDetails (scU : List ℕ) : List DetailRow :=
  scU.map (fun k => { superCat := k, soilLayer := 1, soilType := k, depth := 2 })

/-- The observable outcome of one run: which output files were written (in
order), their contents, and the error the run terminated with, if any. -/
structure RunResult where
  written : List OutFile
  mapOut : List (List ℕ)
  props : List PropRow
  details : List DetailRow
  err : Option PipelineError
deriving DecidableEq

/-- The success condition of the Soil Properties construction (lines 166-175):
each per-parameter unique-value column must have the same length as the
`SuperCats` index (`len(SuperCats.unique())`); pandas raises a ValueError on
the first column assignment whose length differs. -/
def lengthsOk (f0 f1 f2 f3 f4 : Grid) : Bool :=
  ((uniq (flattenGrid f0)).length == (uniq (superCats (flattenGrid f0))).length)
    && ((uniq (flattenGrid f1)).length == (uniq (superCats (flattenGrid f0))).length)
    && ((uniq (flattenGrid f2)).length == (uniq (superCats (flattenGrid f0))).length)
    && ((uniq (flattenGrid f3)).length == (uniq (superCats (flattenGrid f0))).length)
    && ((uniq (flattenGrid f4)).length == (uniq (superCats (flattenGrid f0))).length)

/-- The whole pipeline, faithful to the script's order of operations:

* `files` is the glob result `PathList` with each file parsed as a grid
  (index 0 = θSat, 1 = θRes, 2 = Ksat, 3 = α, 4 = n);
* fewer than five files: `PathList[k]` raises IndexError (line 70 when the
  list is empty, lines 110-113 otherwise) before any output is written;
* the Supercategory Map is written first (line 146);
* the Soil Properties table is then built (lines 166-175); assigning a
  unique-value column whose length differs from `len(SuperCats.unique())`
  raises a pandas ValueError there, after the map was already written;
  note that line 160 rebuilds `VG_SuperKsat` from the raw `DfVG_Ksat`, so the
  converted series of line 120 is not used by the table;
* on success the Soil Properties and Soil Details files are written
  (lines 178, 198). -/
def runPipeline (files : List Grid) : RunResult :=
  match files with
  | f0 :: f1 :: f2 :: f3 :: f4 :: _ =>
    if lengthsOk f0 f1 f2 f3 f4 then
      { written := [.superCatsMap, .soilProperties, .soilDetails]
        mapOut := toRows (f0.headD []).length (superCats (flattenGrid f0))
        props := buildProps (uniq (superCats (flattenGrid f0)))
          (uniq (flattenGrid f0)) (uniq (flattenGrid f1)) (uniq (flattenGrid f2))
          (uniq (flattenGrid f3)) (uniq (flattenGrid f4))
        details := buildDetails (uniq (superCats (flattenGrid f0)))
        err := none }
    else
      { written := [.superCatsMap]
        mapOut := toRows (f0.headD []).length (superCats (flattenGrid f0))
        props := []
        details := []
        err := some .lengthMismatch }
  | _ => { written := [], mapOut := [], props := [], details := [], err := some .indexError }

theorem runPipeline_cons (f0 f1 f2 f3 f4 : Grid) (rest : List Grid) :
    runPipeline (f0 :: f1 :: f2 :: f3 :: f4 :: rest) =
      if lengthsOk f0 f1 f2 f3 f4 then
        { written := [.superCatsMap, .soilProperties, .soilDetails]
          mapOut := toRows (f0.headD []).length (superCats (flattenGrid f0))
          props := buildProps (uniq (superCats (flattenGrid f0)))
            (uniq (flattenGrid f0)) (uniq (flattenGrid f1)) (uniq (flattenGrid f2))
            (uniq (flattenGrid f3)) (uniq (flattenGrid f4))
          details := buildDetails (uniq (superCats (flattenGrid f0)))
          err := none }
      else
        { written := [.superCatsMap]
          mapOut := toRows (f0.headD []).length (superCats (flattenGrid f0))
          props := []
          details := []
          err := some .lengthMismatch } := rfl

/-! ## Serialisation of the Soil Details file (lines 188-202) -/

/-- How pandas `to_csv` renders the fixed depth float 2.0. -/
def floatStr (q : ℚ) : String :=
  if q.den = 1 then toString q.num ++ ".0" else toString q

/-- The header line written by `DfSuperDetails.to_csv` with `header=True` and
`sep=','`: the column names of lines 189-194 joined by commas. -/
def soilDetailsHeader : String :=
  "<SoilDetails>,SuperCats,SoilLayer,SoilType,Depth[m],</SoilDetails>"

/-- The comma-separated fields of one Soil Details data row, marker columns
included. -/
def detailFields (r : DetailRow) : List String :=
  ["<SoilDetail>", toString r.superCat, toString r.soilLayer,
    toString r.soilType, floatStr r.depth, "</SoilDetail>"]

/-- One CSV line: fields joined by the comma separator. -/
def csvLine (fs : List String) : String := String.intercalate "," fs

/-- The lines of the emitted Soil Details file: header, then one line per
table row. -/
def detailsFileLines (t : List DetailRow) : List String :=
  soilDetailsHeader :: t.map (fun r => csvLine (detailFields r))

/-- A grid whose rows all have the width of its first row — the shape
guarantee the Raster Reader provides (spec §4.3). -/
def wfGrid (g : Grid) : Prop := ∀ row ∈ g, row.length = (g.headD []).length

/-! ## Structural lemmas about `superCats` -/

theorem length_superCats (l : List α) : (superCats l).length = l.length := by
  simp [superCats]

/-- The deduplicated Supercategory IDs are exactly `0, 1, ..., m-1` in that
order, where `m` is the number of distinct θSat values. -/
theorem uniq_superCats (l : List α) :
    uniq (superCats l) = List.range (uniq l).length := by
  have hinj : ∀ a ∈ l, ∀ b ∈ l, (uniq l).indexOf a = (uniq l).indexOf b → a = b :=
    fun a ha b hb h => (List.indexOf_inj (mem_uniq.2 ha) (mem_uniq.2 hb)).1 h
  rw [superCats, uniq_map_of_injOn l _ hinj]
  apply List.ext_getElem
  · simp
  · intro i h1 h2
    simp only [List.getElem_map, List.getElem_range]
    exact List.indexOf_getElem (nodup_uniq _) i (by simpa using h1)

theorem length_uniq_superCats (l : List α) :
    (uniq (superCats l)).length = (uniq l).length := by
  rw [uniq_superCats, List.length_range]

theorem map_getD_range {α : Type} (l : List α) (d : α) :
    (List.range l.length).map (fun k => l.getD k d) = l := by
  apply List.ext_getElem
  · simp
  · intro i h1 h2
    simp only [List.getElem_map, List.getElem_range]
    rw [List.getD_eq_getElem l d h2]

theorem lengthsOk_iff (f0 f1 f2 f3 f4 : Grid) :
    lengthsOk f0 f1 f2 f3 f4 = true ↔
      (uniq (flattenGrid f1)).length = (uniq (flattenGrid f0)).length
      ∧ (uniq (flattenGrid f2)).length = (uniq (flattenGrid f0)).length
      ∧ (uniq (flattenGrid f3)).length = (uniq (flattenGrid f0)).length
      ∧ (uniq (flattenGrid f4)).length = (uniq (flattenGrid f0)).length := by
  simp [lengthsOk, length_uniq_superCats]
  tauto

theorem superCats_getD {l : List α} {i : ℕ} (d : α) (hi : i < l.length) :
    (superCats l).getD i 0 = (uniq l).indexOf (l.getD i d) := by
  have hi' : i < (superCats l).length := by rw [length_superCats]; exact hi
  rw [List.getD_eq_getElem _ _ hi', List.getD_eq_getElem _ _ hi]
  simp [superCats]

/-- All-equal lists collapse to a single unique value. -/
theorem uniq_const {l : List α} {a : α} (h : ∀ x ∈ l, x = a) (hne : l ≠ []) :
    uniq l = [a] := by
  cases l with
  | nil => exact absurd rfl hne
  | cons x xs =>
    have hx : x = a := h x (List.mem_cons_self _ _)
    subst hx
    rw [uniq_cons]
    have hfil : xs.filter (fun y => y ≠ x) = [] :=
      List.filter_eq_nil_iff.2 (fun b hb => by
        simp [h b (List.mem_cons_of_mem _ hb)])
    rw [hfil, uniq_nil]

theorem uniq_quad {a b : α} (hab : a ≠ b) : uniq [a, a, b, a] = [a, b] := by
  rw [uniq_cons]
  have hfil : [a, b, a].filter (fun y => y ≠ a) = [b] := by
    simp [List.filter_cons, hab.symm]
  rw [hfil, uniq_cons]
  simp [uniq_nil]

theorem superCats_quad {a b : α} (hab : a ≠ b) :
    superCats [a, a, b, a] = [0, 0, 1, 0] := by
  have hu : uniq [a, a, b, a] = [a, b] := uniq_quad hab
  have hb : List.indexOf b [a, b] = 1 := by
    rw [List.indexOf_cons_ne _ hab, List.indexOf_cons_self]
  simp [superCats, hu, List.indexOf_cons_self, hb]

theorem dfSubCats_cell {nrows ncols r c : ℕ} (hr : r < nrows) (hc : c < ncols) :
    ((dfSubCats nrows ncols).getD r []).getD c 0 = 1 + ncols * r + c := by
  have hr' : r < (dfSubCats nrows ncols).length := by simp [dfSubCats, hr]
  rw [List.getD_eq_getElem _ _ hr']
  have hrow : (dfSubCats nrows ncols)[r] =
      (List.range ncols).map (fun c => 1 + ncols * r + c) := by
    simp [dfSubCats]
  rw [hrow]
  have hc' : c < ((List.range ncols).map (fun c => 1 + ncols * r + c)).length := by
    simp [hc]
  rw [List.getD_eq_getElem _ _ hc']
  simp

/-! ## Claims -/

/-- C3: the Unit Converter (line 120) returns a list of equal length in which
every element `v ≠ -999` becomes `v * 0.01` and every element equal to `-999`
is passed through unchanged; input `100.0` maps to exactly `1.0`. -/
theorem ksat_conversion_elementwise :
    (∀ (l : List ℚ), (ksatConvert l).length = l.length)
    ∧ (∀ (l : List ℚ) (i : ℕ), i < l.length →
        (l.getD i 0 ≠ -999 → (ksatConvert l).getD i 0 = l.getD i 0 * 0.01)
        ∧ (l.getD i 0 = -999 → (ksatConvert l).getD i 0 = -999))
    ∧ ksatConvert [100] = [1] := by
  refine ⟨fun l => by simp [ksatConvert], fun l i hi => ?_, by norm_num [ksatConvert]⟩
  have hi' : i < (ksatConvert l).length := by simp [ksatConvert, hi]
  rw [List.getD_eq_getElem _ _ hi, List.getD_eq_getElem _ _ hi']
  constructor
  · intro hne
    simp only [ksatConvert, List.getElem_map]
    rw [if_neg hne]
  · intro heq
    simp only [ksatConvert, List.getElem_map]
    rw [if_pos heq, heq]

/-- Witness for C3 at the concrete input `[100, -999]`. -/
theorem ksat_conversion_elementwise_witness :
    (ksatConvert [100, -999]).getD 0 0 = ([(100 : ℚ), -999]).getD 0 0 * 0.01
    ∧ (ksatConvert [100, -999]).getD 1 0 = -999 :=
  ⟨(ksat_conversion_elementwise.2.1 [100, -999] 0 (by decide)).1 (by decide),
   (ksat_conversion_elementwise.2.1 [100, -999] 1 (by decide)).2 (by decide)⟩

/-- C8: the Subcategory Grid Builder (lines 94-103) puts `1 + numCols*r + c`
in cell (r, c), and no two cells share an ID. -/
theorem subcats_grid_cells :
    ∀ (nrows ncols : ℕ), 0 < nrows → 0 < ncols →
      (∀ r c, r < nrows → c < ncols →
        ((dfSubCats nrows ncols).getD r []).getD c 0 = 1 + ncols * r + c)
      ∧ (∀ r c r2 c2, r < nrows → c < ncols → r2 < nrows → c2 < ncols →
          ((dfSubCats nrows ncols).getD r []).getD c 0 =
            ((dfSubCats nrows ncols).getD r2 []).getD c2 0 →
          r = r2 ∧ c = c2) := by
  intro nrows ncols hnr hnc
  refine ⟨fun r c hr hc => dfSubCats_cell hr hc, ?_⟩
  intro r c r2 c2 hr hc hr2 hc2 heq
  rw [dfSubCats_cell hr hc, dfSubCats_cell hr2 hc2] at heq
  have h' : ncols * r + c = ncols * r2 + c2 := by omega
  have hdiv1 : (ncols * r + c) / ncols = r := by
    rw [Nat.mul_add_div hnc, Nat.div_eq_of_lt hc]
    omega
  have hdiv2 : (ncols * r2 + c2) / ncols = r2 := by
    rw [Nat.mul_add_div hnc, Nat.div_eq_of_lt hc2]
    omega
  have hrr : r = r2 := by rw [← hdiv1, h', hdiv2]
  subst hrr
  exact ⟨rfl, Nat.add_left_cancel h'⟩

/-- Witness for C8 on a 2 × 3 grid. -/
theorem subcats_grid_cells_witness :
    ((dfSubCats 2 3).getD 1 []).getD 2 0 = 1 + 3 * 1 + 2 :=
  (subcats_grid_cells 2 3 (by decide) (by decide)).1 1 2 (by decide) (by decide)

/-- C4: the number of Supercategory IDs equals the number of distinct θSat
values of the flattened grid (the -999 sentinel counting as one value), and a
grid holding only -999 collapses to exactly one Supercategory ID. -/
theorem supercat_count_eq_distinct_thetaS :
    (∀ (g : Grid),
      (uniq (superCats (flattenGrid g))).length = (uniq (flattenGrid g)).length)
    ∧ (∀ (nrows ncols : ℕ), 0 < nrows → 0 < ncols →
        (uniq (superCats (flattenGrid
          (List.replicate nrows (List.replicate ncols (-999 : ℚ)))))).length = 1) := by
  constructor
  · intro g
    exact length_uniq_superCats _
  · intro nrows ncols hnr hnc
    rw [length_uniq_superCats]
    have hall : ∀ x ∈ flattenGrid (List.replicate nrows (List.replicate ncols (-999 : ℚ))),
        x = -999 := by
      intro x hx
      rw [flattenGrid, List.mem_flatten] at hx
      obtain ⟨row, hrow, hxr⟩ := hx
      rw [List.eq_of_mem_replicate hrow] at hxr
      exact List.eq_of_mem_replicate hxr
    have hne : flattenGrid (List.replicate nrows (List.replicate ncols (-999 : ℚ))) ≠ [] := by
      rw [flattenGrid]
      intro hcon
      have hlen := congrArg List.length hcon
      rw [List.length_flatten] at hlen
      simp [List.sum_replicate] at hlen
      omega
    rw [uniq_const hall hne]
    rfl

/-- Witness for C4 on an all-(-999) 1 × 1 grid. -/
theorem supercat_count_eq_distinct_thetaS_witness :
    (uniq (superCats (flattenGrid
      (List.replicate 1 (List.replicate 1 (-999 : ℚ)))))).length = 1 :=
  supercat_count_eq_distinct_thetaS.2 1 1 (by decide) (by decide)

/-- C1: two cells get the same Supercategory ID iff their θSat values are
identical; a cell holding a value not seen earlier gets as its ID the number
of distinct values seen strictly before it (so IDs follow first-appearance
order: first distinct value gets 0, second gets 1, ...); and the 2 × 2 grid
with θSat `[[0.4, 0.4], [0.5, 0.4]]` yields Supercategory Map
`[[0, 0], [1, 0]]` with exactly 2 Supercategory IDs. -/
theorem supercat_id_iff_thetaS :
    (∀ (l : List ℚ) (i j : ℕ), i < l.length → j < l.length →
      ((superCats l).getD i 0 = (superCats l).getD j 0 ↔ l.getD i 0 = l.getD j 0))
    ∧ (∀ (l : List ℚ) (i : ℕ), i < l.length →
        l.getD i 0 ∉ l.take i →
        (superCats l).getD i 0 = (uniq (l.take i)).length)
    ∧ toRows 2 (superCats (flattenGrid [[0.4, 0.4], [0.5, 0.4]])) = [[0, 0], [1, 0]]
    ∧ (uniq (superCats (flattenGrid [[0.4, 0.4], [0.5, 0.4]]))).length = 2 := by
  refine ⟨?_, ?_, ?_, ?_⟩
  · intro l i j hi hj
    rw [superCats_getD 0 hi, superCats_getD 0 hj]
    have ha : l.getD i 0 ∈ l := by
      rw [List.getD_eq_getElem _ _ hi]
      exact List.getElem_mem hi
    have hb : l.getD j 0 ∈ l := by
      rw [List.getD_eq_getElem _ _ hj]
      exact List.getElem_mem hj
    exact List.indexOf_inj (mem_uniq.2 ha) (mem_uniq.2 hb)
  · intro l i hi hfresh
    rw [superCats_getD 0 hi, List.getD_eq_getElem _ _ hi]
    rw [List.getD_eq_getElem _ _ hi] at hfresh
    exact indexOf_uniq_of_fresh hi hfresh
  · have hflat : flattenGrid [[(0.4 : ℚ), 0.4], [0.5, 0.4]] = [0.4, 0.4, 0.5, 0.4] := rfl
    rw [hflat, superCats_quad (by norm_num : (0.4 : ℚ) ≠ 0.5)]
    decide
  · have hflat : flattenGrid [[(0.4 : ℚ), 0.4], [0.5, 0.4]] = [0.4, 0.4, 0.5, 0.4] := rfl
    rw [hflat, length_uniq_superCats, uniq_quad (by norm_num : (0.4 : ℚ) ≠ 0.5)]
    rfl

/-- Witness for C1 at the concrete θSat series `[4, 5]`. -/
theorem supercat_id_iff_thetaS_witness :
    ((superCats [(4 : ℚ), 5]).getD 0 0 = (superCats [(4 : ℚ), 5]).getD 1 0 ↔
      ([(4 : ℚ), 5]).getD 0 0 = ([(4 : ℚ), 5]).getD 1 0)
    ∧ (superCats [(4 : ℚ), 5]).getD 1 0 = (uniq (([(4 : ℚ), 5]).take 1)).length :=
  ⟨supercat_id_iff_thetaS.1 [4, 5] 0 1 (by decide) (by decide),
   supercat_id_iff_thetaS.2.1 [4, 5] 1 (by decide) (by decide)⟩

/-- C7 counterexample: with four matching files the run fails, but with an
index-out-of-range error, not a ConfigurationError (the script defines no
such error; `PathList[4]` at line 113 raises IndexError). -/
theorem under_five_files_counterexample :
    (runPipeline [[[4]], [[4]], [[4]], [[4]]]).err = some PipelineError.indexError
    ∧ (runPipeline [[[4]], [[4]], [[4]], [[4]]]).err ≠ some PipelineError.configurationError := by
  decide

/-- C7 amended: with fewer than five matching files the run fails — with an
index-out-of-range error rather than a ConfigurationError — and terminates
without producing any output. -/
theorem under_five_files_fails_without_output :
    ∀ (files : List Grid), files.length < 5 →
      runPipeline files =
        { written := [], mapOut := [], props := [], details := [],
          err := some PipelineError.indexError } := by
  intro files h
  match files with
  | [] => rfl
  | [_] => rfl
  | [_, _] => rfl
  | [_, _, _] => rfl
  | [_, _, _, _] => rfl
  | _ :: _ :: _ :: _ :: _ :: _ =>
    simp only [List.length_cons] at h
    omega

/-- Witness for the amended C7 at the empty file list. -/
theorem under_five_files_fails_without_output_witness :
    runPipeline [] =
      { written := [], mapOut := [], props := [], details := [],
        err := some PipelineError.indexError } :=
  under_five_files_fails_without_output [] (by decide)

/-- C5 counterexample: a run that fails during the Soil Properties
construction (θRes has two distinct values, θSat only one) still emits the
Supercategory Map, so a failing run can leave a partial subset of the three
artifacts. -/
theorem map_written_before_failure :
    (runPipeline [[[4, 4]], [[3, 2]], [[5, 5]], [[6, 6]], [[7, 7]]]).err.isSome = true
    ∧ (runPipeline [[[4, 4]], [[3, 2]], [[5, 5]], [[6, 6]], [[7, 7]]]).written ≠ [] := by
  decide

/-- C5 amended: a failing run leaves either no output files (failures before
the map write, e.g. fewer than five input files) or exactly the Supercategory
Map (failures during the Soil Properties construction, which happen after the
map was written at line 146). -/
theorem error_writes_at_most_map :
    ∀ (files : List Grid), (runPipeline files).err.isSome = true →
      (runPipeline files).written = []
      ∨ (runPipeline files).written = [OutFile.superCatsMap] := by
  intro files h
  match files with
  | [] => exact Or.inl rfl
  | [_] => exact Or.inl rfl
  | [_, _] => exact Or.inl rfl
  | [_, _, _] => exact Or.inl rfl
  | [_, _, _, _] => exact Or.inl rfl
  | f0 :: f1 :: f2 :: f3 :: f4 :: rest =>
    rw [runPipeline_cons] at h ⊢
    by_cases hok : lengthsOk f0 f1 f2 f3 f4 = true
    · rw [if_pos hok] at h
      simp at h
    · rw [if_neg hok]
      exact Or.inr rfl

/-- Witness for the amended C5 at a concrete failing five-file input. -/
theorem error_writes_at_most_map_witness :
    (runPipeline [[[4, 4]], [[3, 2]], [[5, 5]], [[6, 6]], [[7, 7]]]).written = []
    ∨ (runPipeline [[[4, 4]], [[3, 2]], [[5, 5]], [[6, 6]], [[7, 7]]]).written
        = [OutFile.superCatsMap] :=
  error_writes_at_most_map [[[4, 4]], [[3, 2]], [[5, 5]], [[6, 6]], [[7, 7]]] (by decide)

/-- C10: when some parameter among θRes, Ksat, α, n has a number of distinct
flattened values different from θSat's, the Soil Properties construction
fails (pandas ValueError on the mismatched column assignment) and neither the
Soil Properties nor the Soil Details file is produced. -/
theorem mismatched_unique_counts_fail :
    ∀ (f0 f1 f2 f3 f4 : Grid) (rest : List Grid),
      ((uniq (flattenGrid f1)).length ≠ (uniq (flattenGrid f0)).length
        ∨ (uniq (flattenGrid f2)).length ≠ (uniq (flattenGrid f0)).length
        ∨ (uniq (flattenGrid f3)).length ≠ (uniq (flattenGrid f0)).length
        ∨ (uniq (flattenGrid f4)).length ≠ (uniq (flattenGrid f0)).length) →
      (runPipeline (f0 :: f1 :: f2 :: f3 :: f4 :: rest)).err
          = some PipelineError.lengthMismatch
      ∧ OutFile.soilProperties ∉ (runPipeline (f0 :: f1 :: f2 :: f3 :: f4 :: rest)).written
      ∧ OutFile.soilDetails ∉ (runPipeline (f0 :: f1 :: f2 :: f3 :: f4 :: rest)).written := by
  intro f0 f1 f2 f3 f4 rest h
  have hok : ¬(lengthsOk f0 f1 f2 f3 f4 = true) := by
    intro hc
    rcases (lengthsOk_iff f0 f1 f2 f3 f4).1 hc with ⟨h1, h2, h3, h4⟩
    tauto
  rw [runPipeline_cons, if_neg hok]
  refine ⟨rfl, ?_, ?_⟩ <;> simp

/-- Witness for C10: θRes with two distinct values against a constant θSat. -/
theorem mismatched_unique_counts_fail_witness :
    (runPipeline [[[7, 7]], [[3, 2]], [[5, 5]], [[6, 6]], [[8, 8]]]).err
        = some PipelineError.lengthMismatch
    ∧ OutFile.soilProperties ∉ (runPipeline [[[7, 7]], [[3, 2]], [[5, 5]], [[6, 6]], [[8, 8]]]).written
    ∧ OutFile.soilDetails ∉ (runPipeline [[[7, 7]], [[3, 2]], [[5, 5]], [[6, 6]], [[8, 8]]]).written :=
  mismatched_unique_counts_fail [[7, 7]] [[3, 2]] [[5, 5]] [[6, 6]] [[8, 8]] [] (by decide)

/-- C2: the VG_Ksat column of the emitted Soil Properties table does NOT hold
the converted (m/day) values: line 160 rebuilds the column from the raw
`DfVG_Ksat` grid, so for a raw Ksat value of 100 the table holds 100, while
the conversion of line 120 (which the table construction never uses) would
give 1; the claimed relationship `table value = raw * 0.01` fails. -/
theorem ksat_column_not_converted :
    (runPipeline [[[4]], [[3]], [[100]], [[5]], [[12]]]).err = none
    ∧ (runPipeline [[[4]], [[3]], [[100]], [[5]], [[12]]]).props.map PropRow.ksat = [100]
    ∧ ksatConvert [100] = [1]
    ∧ (100 : ℚ) ≠ 100 * 0.01 := by
  refine ⟨by decide, by decide, by norm_num [ksatConvert], by norm_num⟩

/-- C6: on a successful run the number of distinct values in the emitted
Supercategory Map equals the number of data rows of the Soil Properties table
and of the Soil Details table, every ID in the map appears exactly once in
each table, and both tables list the IDs in ascending order. -/
theorem success_outputs_consistent :
    ∀ (f0 f1 f2 f3 f4 : Grid) (rest : List Grid) (r : RunResult),
      r = runPipeline (f0 :: f1 :: f2 :: f3 :: f4 :: rest) →
      wfGrid f0 →
      r.err = none →
      (uniq r.mapOut.flatten).length = r.props.length
      ∧ (uniq r.mapOut.flatten).length = r.details.length
      ∧ (∀ k ∈ r.mapOut.flatten,
          (r.props.map PropRow.superCat).count k = 1
          ∧ (r.details.map DetailRow.superCat).count k = 1)
      ∧ List.Sorted (· < ·) (r.props.map PropRow.superCat)
      ∧ List.Sorted (· < ·) (r.details.map DetailRow.superCat) := by
  intro f0 f1 f2 f3 f4 rest r hr hwf herr
  subst hr
  rw [runPipeline_cons] at herr ⊢
  by_cases hok : lengthsOk f0 f1 f2 f3 f4 = true
  swap
  · rw [if_neg hok] at herr
    simp at herr
  rw [if_pos hok] at herr ⊢
  dsimp only
  have hflat : (toRows (f0.headD []).length (superCats (flattenGrid f0))).flatten
      = superCats (flattenGrid f0) := by
    rcases Nat.eq_zero_or_pos (f0.headD []).length with h0 | hpos
    · have hnil : flattenGrid f0 = [] := by
        have hlen : (flattenGrid f0).length = 0 := by
          rw [flattenGrid, List.length_flatten]
          apply List.sum_eq_zero
          intro x hx
          rw [List.mem_map] at hx
          obtain ⟨row, hrow, hxe⟩ := hx
          rw [← hxe, hwf row hrow, h0]
        exact List.length_eq_zero.1 hlen
      rw [hnil, show superCats ([] : List ℚ) = [] from rfl, toRows_nil]
      rfl
    · exact flatten_toRows _ hpos _
  rw [hflat]
  have hpm : (buildProps (uniq (superCats (flattenGrid f0)))
        (uniq (flattenGrid f0)) (uniq (flattenGrid f1)) (uniq (flattenGrid f2))
        (uniq (flattenGrid f3)) (uniq (flattenGrid f4))).map PropRow.superCat
      = uniq (superCats (flattenGrid f0)) := by
    rw [buildProps, List.map_map]
    exact map_getD_range _ 0
  have hdm : (buildDetails (uniq (superCats (flattenGrid f0)))).map DetailRow.superCat
      = uniq (superCats (flattenGrid f0)) := by
    rw [buildDetails, List.map_map]
    have hcomp : (DetailRow.superCat ∘ fun k =>
        ({ superCat := k, soilLayer := 1, soilType := k, depth := 2 } : DetailRow)) = id := rfl
    rw [hcomp, List.map_id]
  refine ⟨by simp [buildProps], by simp [buildDetails], ?_, ?_, ?_⟩
  · intro k hk
    rw [hpm, hdm]
    have hku : k ∈ uniq (superCats (flattenGrid f0)) := mem_uniq.2 hk
    exact ⟨List.count_eq_one_of_mem (nodup_uniq _) hku,
      List.count_eq_one_of_mem (nodup_uniq _) hku⟩
  · rw [hpm, uniq_superCats]
    exact List.sorted_lt_range _
  · rw [hdm, uniq_superCats]
    exact List.sorted_lt_range _

/-- Witness for C6 at a concrete successful run. -/
theorem success_outputs_consistent_witness :
    (uniq (runPipeline [[[4]], [[3]], [[100]], [[5]], [[12]]]).mapOut.flatten).length
        = (runPipeline [[[4]], [[3]], [[100]], [[5]], [[12]]]).props.length
    ∧ (uniq (runPipeline [[[4]], [[3]], [[100]], [[5]], [[12]]]).mapOut.flatten).length
        = (runPipeline [[[4]], [[3]], [[100]], [[5]], [[12]]]).details.length
    ∧ (∀ k ∈ (runPipeline [[[4]], [[3]], [[100]], [[5]], [[12]]]).mapOut.flatten,
        ((runPipeline [[[4]], [[3]], [[100]], [[5]], [[12]]]).props.map PropRow.superCat).count k = 1
        ∧ ((runPipeline [[[4]], [[3]], [[100]], [[5]], [[12]]]).details.map DetailRow.superCat).count k = 1)
    ∧ List.Sorted (· < ·) ((runPipeline [[[4]], [[3]], [[100]], [[5]], [[12]]]).props.map PropRow.superCat)
    ∧ List.Sorted (· < ·) ((runPipeline [[[4]], [[3]], [[100]], [[5]], [[12]]]).details.map DetailRow.superCat) :=
  success_outputs_consistent [[4]] [[3]] [[100]] [[5]] [[12]] [] _ rfl
    (by simp [wfGrid]) (by decide)

/-- C9: on a successful run the Soil Details file starts with the literal
header line `<SoilDetails>,SuperCats,SoilLayer,SoilType,Depth[m],</SoilDetails>`
(comma-delimited), and every data row
carries the `<SoilDetail>`/`</SoilDetail>` markers as first and last field,
SoilLayer 1, Depth[m] 2.0, and SoilType equal to the row's Supercategory
ID. -/
theorem details_file_format :
    ∀ (f0 f1 f2 f3 f4 : Grid) (rest : List Grid) (r : RunResult),
      r = runPipeline (f0 :: f1 :: f2 :: f3 :: f4 :: rest) →
      r.err = none →
      (detailsFileLines r.details).head? =
        some "<SoilDetails>,SuperCats,SoilLayer,SoilType,Depth[m],</SoilDetails>"
      ∧ ∀ d ∈ r.details,
          d.soilLayer = 1 ∧ d.depth = 2 ∧ d.soilType = d.superCat
          ∧ (detailFields d).head? = some "<SoilDetail>"
          ∧ (detailFields d).getLast? = some "</SoilDetail>"
          ∧ (detailFields d).getD 2 "" = "1"
          ∧ (detailFields d).getD 4 "" = "2.0" := by
  intro f0 f1 f2 f3 f4 rest r hr herr
  subst hr
  refine ⟨rfl, ?_⟩
  intro d hd
  rw [runPipeline_cons] at hd herr
  by_cases hok : lengthsOk f0 f1 f2 f3 f4 = true
  swap
  · rw [if_neg hok] at herr
    simp at herr
  rw [if_pos hok] at hd
  dsimp only at hd
  rw [buildDetails, List.mem_map] at hd
  obtain ⟨k, _, hdk⟩ := hd
  subst hdk
  have h3 : toString (1 : ℕ) = "1" := rfl
  have h5 : floatStr (2 : ℚ) = "2.0" := by decide
  have hfields : detailFields { superCat := k, soilLayer := 1, soilType := k, depth := 2 } =
      ["<SoilDetail>", toString k, "1", toString k, "2.0", "</SoilDetail>"] := by
    dsimp only [detailFields]
    rw [h3, h5]
  refine ⟨rfl, rfl, rfl, ?_, ?_, ?_, ?_⟩ <;> rw [hfields] <;> rfl

/-- Witness for C9 at a concrete successful run. -/
theorem details_file_format_witness :
    (detailsFileLines (runPipeline [[[14]], [[3]], [[100]], [[5]], [[12]]]).details).head? =
      some "<SoilDetails>,SuperCats,SoilLayer,SoilType,Depth[m],</SoilDetails>"
    ∧ ∀ d ∈ (runPipeline [[[14]], [[3]], [[100]], [[5]], [[12]]]).details,
        d.soilLayer = 1 ∧ d.depth = 2 ∧ d.soilType = d.superCat
        ∧ (detailFields d).head? = some "<SoilDetail>"
        ∧ (detailFields d).getLast? = some "</SoilDetail>"
        ∧ (detailFields d).getD 2 "" = "1"
        ∧ (detailFields d).getD 4 "" = "2.0" :=
  details_file_format [[14]] [[3]] [[100]] [[5]] [[12]] [] _ rfl (by decide)

end SchaapToShetran
